import Mathlib

/-!
Shallow embedding of the cell family of the `embedded-threadsafe` and
`embedded-singletons` crates: the lazily instantiated cell (lazy.rs, identical
in both crates), the three cell tiers (safecells of embedded-threadsafe), the
three singleton tiers (singletons of embedded-singletons) and the rp2040
runtime adapter (runtime.rs of the -rp2040 crates).

Modelling conventions:
* An execution context is the pair of runtime primitives: the thread identifier
  returned by the runtime threadid function (a natural number) and the boolean
  returned by the runtime isinterrupted function.
* Rust panics (assert, assert_eq, expect, unreachable) are modelled as
  `Except.error` carrying the panic message; `Except.ok` is normal return.
* A Rust accessor closure of type FnOnce with a mutable reference argument is
  modelled as `T → FR × T` (the returned result together with the value after
  the mutation); an initializer closure FnOnce producing T as `Unit → T`.
* The two runtime contract functions declared in runtime.rs of the library
  crates are modelled as trace-bracketing wrappers: the trace of `Event`s
  records what ran inside which exclusivity window.  The rp2040 implementation
  of the interrupt-masking contract function is modelled separately (namespace
  `Rp2040`) with an explicit PRIMASK interrupt-enable state.
* The pointer obtained from the interior-mutability cell is never null, so the
  expect branches guarding against a NULL pointer cannot fire; the raw
  accessors are therefore total.
-/

/-- An execution context as seen through the runtime contract: the current
thread/core identifier and whether we are inside an interrupt handler. -/
structure Ctx where
  threadId : Nat
  isInterrupted : Bool
deriving DecidableEq

/-- A Rust panic, carrying its message. -/
structure RtPanic where
  msg : String
deriving DecidableEq

/-- Trace events: initializer runs, accessor runs, and the exclusivity windows
opened by the two runtime contract functions. -/
inductive Event where
  | critEnter
  | critExit
  | intMaskEnter
  | intMaskExit
  | initRun
  | accessorRun
deriving DecidableEq

/-- Model of the extern runtime contract function that runs its body inside a
full cross-context critical section (the threadsafe contract function,
implemented on rp2040 by a critical_section): the body's trace is bracketed by
critEnter and critExit.  A panic inside unwinds out unchanged. -/
def runtime_threadsafe_e0LtH0x3 {α : Type} (body : Except RtPanic (α × List Event)) :
    Except RtPanic (α × List Event) :=
  match body with
  | Except.ok (a, ev) => Except.ok (a, Event.critEnter :: (ev ++ [Event.critExit]))
  | Except.error e => Except.error e

/-- Model of the extern runtime contract function that runs its body with the
current context's interrupts masked (the interrupt-masking contract function):
the body's trace is bracketed by intMaskEnter and intMaskExit. -/
def runtime_interruptsafe_1l52Ge5e {α : Type} (body : Except RtPanic (α × List Event)) :
    Except RtPanic (α × List Event) :=
  match body with
  | Except.ok (a, ev) => Except.ok (a, Event.intMaskEnter :: (ev ++ [Event.intMaskExit]))
  | Except.error e => Except.error e

/-- The lazily instantiated cell of lazy.rs (identical in both crates): the
interior tuple (Option of initializer, Option of value), with the initializer
modelled as `Unit → T`. -/
structure LazyCell (T : Type) where
  init : Option (Unit → T)
  value : Option T

/-- The new constructor of the lazy cell: stores the initializer, no value. -/
def LazyCell.new {T : Type} (init : Unit → T) : LazyCell T :=
  ⟨some init, none⟩

/-- The scope operation of the lazy cell (lazy.rs): take the initializer out of
its slot and, if one was present, run it and store the produced value; then, if
there is still no value, panic (the unreachable branch); otherwise run the
accessor on the value and return its result.  The returned cell state has the
initializer slot cleared and holds the value left by the accessor. -/
def LazyCell.scope {T FR : Type} (cell : LazyCell T) (scope : T → FR × T) :
    Except RtPanic ((FR × LazyCell T) × List Event) :=
  match cell.init with
  | some init =>
      let v := init ()
      let r := scope v
      Except.ok ((r.1, ⟨none, some r.2⟩), [Event.initRun, Event.accessorRun])
  | none =>
      match cell.value with
      | none => Except.error ⟨"initialized cell has not value"⟩
      | some v =>
          let r := scope v
          Except.ok ((r.1, ⟨none, some r.2⟩), [Event.accessorRun])

/-- The scope_mut operation (embedded-threadsafe lazy.rs only): a safe wrapper
that just calls scope. -/
def LazyCell.scope_mut {T FR : Type} (cell : LazyCell T) (scope : T → FR × T) :
    Except RtPanic ((FR × LazyCell T) × List Event) :=
  cell.scope scope

/-- Reachable lazy-cell states: fresh (initializer present) or initialized
(value present).  The new constructor establishes this and scope preserves it;
the excluded state is exactly the unreachable panic branch of scope. -/
def LazyCell.wf {T : Type} (cell : LazyCell T) : Prop :=
  cell.init.isSome = true ∨ cell.value.isSome = true

/-- N sequential scope calls on one lazy cell, threading the cell state and
concatenating the traces; a panic aborts the sequence. -/
def LazyCell.scopeSeq {T FR : Type} (cell : LazyCell T) :
    List (T → FR × T) → Except RtPanic ((List FR × LazyCell T) × List Event)
  | [] => Except.ok (([], cell), [])
  | scope :: rest =>
      match cell.scope scope with
      | Except.error e => Except.error e
      | Except.ok ((r, cell2), ev) =>
          match cell2.scopeSeq rest with
          | Except.error e => Except.error e
          | Except.ok ((rs, cellF), evs) => Except.ok ((r :: rs, cellF), ev ++ evs)

/-- Reference semantics for sequential accesses to a single stored instance:
each accessor is applied to the value left by the previous one, starting from
the given instance; returns all results and the final value. -/
def threadAccessors {T FR : Type} (v : T) : List (T → FR × T) → List FR × T
  | [] => ([], v)
  | scope :: rest =>
      let r := scope v
      let rest_ := threadAccessors r.2 rest
      (r.1 :: rest_.1, rest_.2)

namespace Threadsafe

/-- The fast, thread-local cell of safecells local.rs of embedded-threadsafe:
a wrapped value plus the associated thread identifier. -/
structure LocalCell (T : Type) where
  inner : T
  thread_id : Nat

/-- The new_with_threadid constructor of the local cell: stores the value and
the explicitly supplied thread identifier. -/
def LocalCell.new_with_threadid {T : Type} (value : T) (thread_id : Nat) : LocalCell T :=
  ⟨value, thread_id⟩

/-- The new constructor of the local cell: queries the runtime thread
identifier of the constructing context and delegates to new_with_threadid. -/
def LocalCell.new {T : Type} (ctx : Ctx) (value : T) : LocalCell T :=
  LocalCell.new_with_threadid value ctx.threadId

/-- The raw operation of the local cell: unchecked access, runs the accessor
directly on the wrapped value. -/
def LocalCell.raw {T FR : Type} (cell : LocalCell T) (scope : T → FR × T) :
    (FR × LocalCell T) × List Event :=
  let r := scope cell.inner
  ((r.1, ⟨r.2, cell.thread_id⟩), [Event.accessorRun])

/-- The scope operation of the local cell: first asserts that we are not in an
interrupt handler, then asserts that the runtime thread identifier equals the
stored one, and only then performs the raw access. -/
def LocalCell.scope {T FR : Type} (ctx : Ctx) (cell : LocalCell T) (scope : T → FR × T) :
    Except RtPanic ((FR × LocalCell T) × List Event) :=
  if ctx.isInterrupted then
    Except.error ⟨"cannot access local cell from an interrupt handler"⟩
  else if ctx.threadId ≠ cell.thread_id then
    Except.error ⟨"cannot access local cell from another thread"⟩
  else
    Except.ok (cell.raw scope)

/-- The Debug formatting output: either a debug tuple with a fixed placeholder
text, or the live wrapped value handed to the field formatter. -/
inductive FmtOut (T : Type) where
  | fixedText (tupleName : String) (text : String)
  | live (value : T)

/-- The Debug implementation of the local cell: wrong thread or interrupt
context yield a fixed placeholder without touching the value; otherwise the
value is formatted through the checked scope operation. -/
def LocalCell.fmt {T : Type} (ctx : Ctx) (cell : LocalCell T) :
    Except RtPanic (FmtOut T × List Event) :=
  if ctx.threadId ≠ cell.thread_id then
    Except.ok (FmtOut.fixedText "LocalCell" "<opaque due to different thread>", [])
  else if ctx.isInterrupted then
    Except.ok (FmtOut.fixedText "LocalCell" "<opaque due to interrupt context>", [])
  else
    match cell.scope ctx (fun v => (FmtOut.live v, v)) with
    | Except.ok ((out, _), ev) => Except.ok (out, ev)
    | Except.error e => Except.error e

/-- The thread-local, interrupt-shareable cell of safecells interrupt.rs of
embedded-threadsafe: a wrapped value plus the associated thread identifier. -/
structure InterruptCell (T : Type) where
  inner : T
  thread_id : Nat

/-- The new_with_threadid constructor of the interrupt cell. -/
def InterruptCell.new_with_threadid {T : Type} (value : T) (thread_id : Nat) : InterruptCell T :=
  ⟨value, thread_id⟩

/-- The new constructor of the interrupt cell: queries the runtime thread
identifier of the constructing context and delegates to new_with_threadid. -/
def InterruptCell.new {T : Type} (ctx : Ctx) (value : T) : InterruptCell T :=
  InterruptCell.new_with_threadid value ctx.threadId

/-- The raw operation of the interrupt cell: unchecked access. -/
def InterruptCell.raw {T FR : Type} (cell : InterruptCell T) (scope : T → FR × T) :
    (FR × InterruptCell T) × List Event :=
  let r := scope cell.inner
  ((r.1, ⟨r.2, cell.thread_id⟩), [Event.accessorRun])

/-- The scope operation of the interrupt cell: asserts only that the runtime
thread identifier equals the stored one (an interrupt context is allowed), then
runs the raw access inside the interrupt-masking contract function.  The Option
slots that carry the closure and its result in and out of the FnMut wrapper are
the identity in this sequential model. -/
def InterruptCell.scope {T FR : Type} (ctx : Ctx) (cell : InterruptCell T) (scope : T → FR × T) :
    Except RtPanic ((FR × InterruptCell T) × List Event) :=
  if ctx.threadId ≠ cell.thread_id then
    Except.error ⟨"cannot access local cell from another thread"⟩
  else
    runtime_interruptsafe_1l52Ge5e (Except.ok (cell.raw scope))

/-- The lazy_scope operation of the interrupt cell wrapping a lazy cell: scoped
access that runs scope_mut of the inner lazy cell inside the checked scope. -/
def InterruptCell.lazy_scope {T FR : Type} (ctx : Ctx) (cell : InterruptCell (LazyCell T))
    (scope : T → FR × T) : Except RtPanic ((FR × InterruptCell (LazyCell T)) × List Event) :=
  if ctx.threadId ≠ cell.thread_id then
    Except.error ⟨"cannot access local cell from another thread"⟩
  else
    match cell.inner.scope_mut scope with
    | Except.error e => Except.error e
    | Except.ok ((r, inner2), ev) =>
        runtime_interruptsafe_1l52Ge5e (Except.ok ((r, (⟨inner2, cell.thread_id⟩ : InterruptCell (LazyCell T))), ev))

/-- The Debug implementation of the interrupt cell: wrong thread yields a fixed
placeholder; otherwise the value is formatted through the checked scope. -/
def InterruptCell.fmt {T : Type} (ctx : Ctx) (cell : InterruptCell T) :
    Except RtPanic (FmtOut T × List Event) :=
  if ctx.threadId ≠ cell.thread_id then
    Except.ok (FmtOut.fixedText "InterruptCell" "<opaque due to different thread>", [])
  else
    match cell.scope ctx (fun v => (FmtOut.live v, v)) with
    | Except.ok ((out, _), ev) => Except.ok (out, ev)
    | Except.error e => Except.error e

/-- The shareable cell of safecells shared.rs of embedded-threadsafe: just the
wrapped value, no identity. -/
structure SharedCell (T : Type) where
  inner : T

/-- The new constructor of the shared cell. -/
def SharedCell.new {T : Type} (value : T) : SharedCell T :=
  ⟨value⟩

/-- The raw operation of the shared cell: unchecked access. -/
def SharedCell.raw {T FR : Type} (cell : SharedCell T) (scope : T → FR × T) :
    (FR × SharedCell T) × List Event :=
  let r := scope cell.inner
  ((r.1, ⟨r.2⟩), [Event.accessorRun])

/-- The scope operation of the shared cell: runs the raw access inside the
full cross-context critical section and returns its result. -/
def SharedCell.scope {T FR : Type} (cell : SharedCell T) (scope : T → FR × T) :
    Except RtPanic ((FR × SharedCell T) × List Event) :=
  runtime_threadsafe_e0LtH0x3 (Except.ok (cell.raw scope))

end Threadsafe

namespace Singletons

/-- The thread-local lazy singleton of singletons local.rs of
embedded-singletons: its compile-time constant bound thread identifier (the
const generic parameter) together with the single inner lazy cell. -/
structure LocalSingleton (T : Type) where
  THREAD_ID : Nat
  inner : LazyCell T

/-- The new constructor of the local singleton: stores the initializer in a
fresh lazy cell; the bound identifier is the const generic parameter. -/
def LocalSingleton.new {T : Type} (THREAD_ID : Nat) (init : Unit → T) : LocalSingleton T :=
  ⟨THREAD_ID, LazyCell.new init⟩

/-- The raw operation of the local singleton: unchecked scoped access to the
inner lazy cell. -/
def LocalSingleton.raw {T FR : Type} (cell : LocalSingleton T) (scope : T → FR × T) :
    Except RtPanic ((FR × LocalSingleton T) × List Event) :=
  match cell.inner.scope scope with
  | Except.error e => Except.error e
  | Except.ok ((r, inner2), ev) => Except.ok ((r, ⟨cell.THREAD_ID, inner2⟩), ev)

/-- The scope operation of the local singleton: first asserts that the runtime
thread identifier equals the bound one, then asserts that we are not in an
interrupt handler, and only then performs the raw access. -/
def LocalSingleton.scope {T FR : Type} (ctx : Ctx) (cell : LocalSingleton T)
    (scope : T → FR × T) : Except RtPanic ((FR × LocalSingleton T) × List Event) :=
  if ctx.threadId ≠ cell.THREAD_ID then
    Except.error ⟨"cannot access local singleton from different thread context"⟩
  else if ctx.isInterrupted then
    Except.error ⟨"cannot access local singleton from an interrupt handler"⟩
  else
    cell.raw scope

/-- The Debug implementation of the local singleton: wrong thread or interrupt
context yield a fixed placeholder without touching the value; otherwise the
value is formatted through the checked scope operation. -/
def LocalSingleton.fmt {T : Type} (ctx : Ctx) (cell : LocalSingleton T) :
    Except RtPanic (Threadsafe.FmtOut T × List Event) :=
  if ctx.threadId ≠ cell.THREAD_ID then
    Except.ok (Threadsafe.FmtOut.fixedText "LocalSingleton" "<opaque due to different thread context>", [])
  else if ctx.isInterrupted then
    Except.ok (Threadsafe.FmtOut.fixedText "LocalSingleton" "<opaque due to interrupt context>", [])
  else
    match cell.scope ctx (fun v => (Threadsafe.FmtOut.live v, v)) with
    | Except.ok ((out, _), ev) => Except.ok (out, ev)
    | Except.error e => Except.error e

/-- The interrupt-shareable lazy singleton of singletons interrupt.rs of
embedded-singletons: its compile-time constant bound thread identifier together
with the single inner lazy cell. -/
structure InterruptSingleton (T : Type) where
  THREAD_ID : Nat
  inner : LazyCell T

/-- The new constructor of the interrupt singleton. -/
def InterruptSingleton.new {T : Type} (THREAD_ID : Nat) (init : Unit → T) : InterruptSingleton T :=
  ⟨THREAD_ID, LazyCell.new init⟩

/-- The raw operation of the interrupt singleton: unchecked scoped access to
the inner lazy cell. -/
def InterruptSingleton.raw {T FR : Type} (cell : InterruptSingleton T) (scope : T → FR × T) :
    Except RtPanic ((FR × InterruptSingleton T) × List Event) :=
  match cell.inner.scope scope with
  | Except.error e => Except.error e
  | Except.ok ((r, inner2), ev) => Except.ok ((r, ⟨cell.THREAD_ID, inner2⟩), ev)

/-- The scope operation of the interrupt singleton: asserts only that the
runtime thread identifier equals the bound one (an interrupt context is
allowed), then runs the raw access inside the interrupt-masking contract
function.  The Option slots that carry the closure and its result in and out of
the FnMut wrapper are the identity in this sequential model. -/
def InterruptSingleton.scope {T FR : Type} (ctx : Ctx) (cell : InterruptSingleton T)
    (scope : T → FR × T) : Except RtPanic ((FR × InterruptSingleton T) × List Event) :=
  if ctx.threadId ≠ cell.THREAD_ID then
    Except.error ⟨"cannot access local singleton from different thread context"⟩
  else
    runtime_interruptsafe_1l52Ge5e (cell.raw scope)

/-- The Debug implementation of the interrupt singleton: wrong thread yields a
fixed placeholder; otherwise the value is formatted through the checked
scope. -/
def InterruptSingleton.fmt {T : Type} (ctx : Ctx) (cell : InterruptSingleton T) :
    Except RtPanic (Threadsafe.FmtOut T × List Event) :=
  if ctx.threadId ≠ cell.THREAD_ID then
    Except.ok (Threadsafe.FmtOut.fixedText "InterruptSingleton" "<opaque due to different thread context>", [])
  else
    match cell.scope ctx (fun v => (Threadsafe.FmtOut.live v, v)) with
    | Except.ok ((out, _), ev) => Except.ok (out, ev)
    | Except.error e => Except.error e

/-- The globally shared lazy singleton of singletons shared.rs of
embedded-singletons: the single inner lazy cell, no identity. -/
structure SharedSingleton (T : Type) where
  inner : LazyCell T

/-- The new constructor of the shared singleton. -/
def SharedSingleton.new {T : Type} (init : Unit → T) : SharedSingleton T :=
  ⟨LazyCell.new init⟩

/-- The raw operation of the shared singleton: unchecked scoped access to the
inner lazy cell. -/
def SharedSingleton.raw {T FR : Type} (cell : SharedSingleton T) (scope : T → FR × T) :
    Except RtPanic ((FR × SharedSingleton T) × List Event) :=
  match cell.inner.scope scope with
  | Except.error e => Except.error e
  | Except.ok ((r, inner2), ev) => Except.ok ((r, ⟨inner2⟩), ev)

/-- The scope operation of the shared singleton: runs the raw access (one-time
initialization if needed, then the accessor) inside the full cross-context
critical section and returns its result. -/
def SharedSingleton.scope {T FR : Type} (cell : SharedSingleton T) (scope : T → FR × T) :
    Except RtPanic ((FR × SharedSingleton T) × List Event) :=
  runtime_threadsafe_e0LtH0x3 (cell.raw scope)

end Singletons

namespace Rp2040

/-- The interrupt-enable state of one core of the rp2040 runtime adapter: the
PRIMASK interrupts-active flag together with the rest of the memory the guarded
code may touch (abstracted as one field of an arbitrary type). -/
structure IntState (σ : Type) where
  primaskActive : Bool
  mem : σ

/-- The rp2040 implementation of the interrupt-masking runtime contract
function (runtime.rs of both -rp2040 crates): read the PRIMASK interrupts-
active flag, disable interrupts, run the code, and re-enable interrupts only if
they were active before the call.  The compiler fences have no semantic content
in this sequential model. -/
def runtime_interruptsafe {σ : Type} (code : IntState σ → IntState σ) (s : IntState σ) :
    IntState σ :=
  let interrupts_active := s.primaskActive
  let s1 : IntState σ := ⟨false, s.mem⟩
  let s2 := code s1
  if interrupts_active then ⟨true, s2.mem⟩ else s2

end Rp2040

/-- A two-field record, as used in the round-trip property. -/
structure Pair where
  a : Nat
  b : Nat
deriving DecidableEq

/-- The table-based access discipline the spec asserts for the Local Singleton
form, stated over the code's singleton: some declared capacity (the maximum
context count, the size of the fixed table) exists such that every access whose
bound identifier is not below that capacity fails the bounds check and aborts,
whatever the calling context. -/
def specLocalSingletonTableBound (capacity : Nat) : Prop :=
  ∀ (cell : Singletons.LocalSingleton Nat) (ctx : Ctx) (acc : Nat → Nat × Nat),
    capacity ≤ cell.THREAD_ID →
      ∃ e, Singletons.LocalSingleton.scope ctx cell acc = Except.error e

/-- C5: the lazy cell's scope operation: when the stored initializer has not
yet run it is invoked, its result stored as the value and the initializer slot
discarded; then the accessor is invoked on the stored value; exactly the
accessor's result is returned, and the new cell holds the value the accessor
left, with the initializer slot cleared. -/
theorem lazycell_scope_spec {T FR : Type} (cell : LazyCell T) (acc : T → FR × T) :
    (∀ init, cell.init = some init →
      cell.scope acc =
        Except.ok (((acc (init ())).1, ⟨none, some (acc (init ())).2⟩),
          [Event.initRun, Event.accessorRun])) ∧
    (∀ v, cell.init = none → cell.value = some v →
      cell.scope acc =
        Except.ok (((acc v).1, ⟨none, some (acc v).2⟩), [Event.accessorRun])) := by
  constructor
  · intro init h
    simp [LazyCell.scope, h]
  · intro v h hv
    simp [LazyCell.scope, h, hv]

/-- Witness for C5: a fresh cell with initializer producing 5 and an accessor
incrementing the value returns 6 and stores 6, clearing the initializer. -/
theorem lazycell_scope_spec_witness :
    (LazyCell.new (fun _ => (5 : Nat))).scope (fun v => (v + 1, v + 1)) =
      Except.ok (((6 : Nat), (⟨none, some 6⟩ : LazyCell Nat)),
        [Event.initRun, Event.accessorRun]) :=
  (lazycell_scope_spec (LazyCell.new (fun _ => (5 : Nat))) (fun v => (v + 1, v + 1))).1
    (fun _ => (5 : Nat)) rfl

/-- Sequential scopes on an already-initialized cell never run an initializer
and thread the stored instance through the accessors. -/
theorem scopeSeq_initialized {T FR : Type} (v : T) (accs : List (T → FR × T)) :
    ∃ ev, (LazyCell.mk none (some v) : LazyCell T).scopeSeq accs =
        Except.ok (((threadAccessors v accs).1,
          (⟨none, some (threadAccessors v accs).2⟩ : LazyCell T)), ev) ∧
      ev.count Event.initRun = 0 := by
  induction accs generalizing v with
  | nil => exact ⟨[], rfl, rfl⟩
  | cons a rest ih =>
      obtain ⟨ev, hseq, hcount⟩ := ih (a v).2
      refine ⟨Event.accessorRun :: ev, ?_, ?_⟩
      · simp [LazyCell.scopeSeq, LazyCell.scope, hseq, threadAccessors]
      · simpa [List.count_cons] using hcount

/-- C1: starting from a fresh lazy cell, across any N = 1 + k sequential scoped
accesses the initializer is invoked exactly once, namely during the first
access (the initializer-run event heads the trace), which also clears the
initializer slot; all accessors are applied to the single produced instance,
each receiving the value left by the previous one, starting from the
initializer's output. -/
theorem lazy_initializer_runs_once {T FR : Type} (init : Unit → T)
    (a : T → FR × T) (rest : List (T → FR × T)) :
    (LazyCell.new init).scope a =
      Except.ok (((a (init ())).1, (⟨none, some (a (init ())).2⟩ : LazyCell T)),
        [Event.initRun, Event.accessorRun]) ∧
    ∃ ev, (LazyCell.new init).scopeSeq (a :: rest) =
        Except.ok (((threadAccessors (init ()) (a :: rest)).1,
          (⟨none, some (threadAccessors (init ()) (a :: rest)).2⟩ : LazyCell T)), ev) ∧
      ev.count Event.initRun = 1 ∧ ev.head? = some Event.initRun := by
  refine ⟨by simp [LazyCell.scope, LazyCell.new], ?_⟩
  obtain ⟨ev, hseq, hcount⟩ := scopeSeq_initialized (a (init ())).2 rest
  refine ⟨Event.initRun :: Event.accessorRun :: ev, ?_, ?_, rfl⟩
  · simp [LazyCell.scopeSeq, LazyCell.scope, LazyCell.new, hseq, threadAccessors]
  · simp [List.count_cons, hcount]

/-- C2: the scope operation of the Local variants performs both context checks
before any access: the runtime thread identifier must equal the bound one and
the call must not come from an interrupt context.  If either check fails the
call panics and never produces a result or runs the accessor; if both pass, the
threadsafe LocalCell invokes the accessor on the wrapped value with a trace
containing no locking window, and the singletons LocalSingleton reduces to its
unguarded raw access. -/
theorem localcell_scope_policy {T FR : Type} (ctx : Ctx) (cellT : Threadsafe.LocalCell T)
    (cellS : Singletons.LocalSingleton T) (acc : T → FR × T) :
    (ctx.isInterrupted = true ∨ ctx.threadId ≠ cellT.thread_id →
      ∃ e, Threadsafe.LocalCell.scope ctx cellT acc = Except.error e) ∧
    (ctx.isInterrupted = false → ctx.threadId = cellT.thread_id →
      Threadsafe.LocalCell.scope ctx cellT acc =
        Except.ok (((acc cellT.inner).1,
          (⟨(acc cellT.inner).2, cellT.thread_id⟩ : Threadsafe.LocalCell T)),
          [Event.accessorRun])) ∧
    (ctx.isInterrupted = true ∨ ctx.threadId ≠ cellS.THREAD_ID →
      ∃ e, Singletons.LocalSingleton.scope ctx cellS acc = Except.error e) ∧
    (ctx.isInterrupted = false → ctx.threadId = cellS.THREAD_ID →
      Singletons.LocalSingleton.scope ctx cellS acc = cellS.raw acc) := by
  refine ⟨?_, ?_, ?_, ?_⟩
  · rintro (hint | hid)
    · exact ⟨⟨"cannot access local cell from an interrupt handler"⟩,
        by simp [Threadsafe.LocalCell.scope, hint]⟩
    · by_cases hint : ctx.isInterrupted
      · exact ⟨⟨"cannot access local cell from an interrupt handler"⟩,
          by simp [Threadsafe.LocalCell.scope, hint]⟩
      · exact ⟨⟨"cannot access local cell from another thread"⟩,
          by simp [Threadsafe.LocalCell.scope, hint, hid]⟩
  · intro hint hid
    simp [Threadsafe.LocalCell.scope, Threadsafe.LocalCell.raw, hint, hid]
  · rintro (hint | hid)
    · by_cases hid : ctx.threadId = cellS.THREAD_ID
      · exact ⟨⟨"cannot access local singleton from an interrupt handler"⟩,
          by simp [Singletons.LocalSingleton.scope, hint, hid]⟩
      · exact ⟨⟨"cannot access local singleton from different thread context"⟩,
          by simp [Singletons.LocalSingleton.scope, hid]⟩
    · exact ⟨⟨"cannot access local singleton from different thread context"⟩,
        by simp [Singletons.LocalSingleton.scope, hid]⟩
  · intro hint hid
    simp [Singletons.LocalSingleton.scope, hint, hid]

/-- Witness for C2: a local cell bound to thread 3 accessed from thread 5
panics (for both crates), and the same cell accessed from thread 3 outside an
interrupt handler returns the accessor's result. -/
theorem localcell_scope_policy_witness :
    (∃ e, Threadsafe.LocalCell.scope ⟨5, false⟩ (⟨(0 : Nat), 3⟩ : Threadsafe.LocalCell Nat)
      (fun v => (v, v)) = Except.error e) ∧
    (∃ e, Singletons.LocalSingleton.scope ⟨5, false⟩
      (Singletons.LocalSingleton.new 3 (fun _ => (0 : Nat))) (fun v => (v, v)) =
        Except.error e) ∧
    Threadsafe.LocalCell.scope ⟨3, false⟩ (⟨(7 : Nat), 3⟩ : Threadsafe.LocalCell Nat)
      (fun v => (v + 1, v + 1)) =
      Except.ok (((8 : Nat), (⟨8, 3⟩ : Threadsafe.LocalCell Nat)), [Event.accessorRun]) :=
  ⟨(localcell_scope_policy ⟨5, false⟩ (⟨(0 : Nat), 3⟩ : Threadsafe.LocalCell Nat)
      (Singletons.LocalSingleton.new 3 (fun _ => (0 : Nat))) (fun v => (v, v))).1
        (Or.inr (by decide)),
   (localcell_scope_policy ⟨5, false⟩ (⟨(0 : Nat), 3⟩ : Threadsafe.LocalCell Nat)
      (Singletons.LocalSingleton.new 3 (fun _ => (0 : Nat))) (fun v => (v, v))).2.2.1
        (Or.inr (by decide)),
   (localcell_scope_policy ⟨3, false⟩ (⟨(7 : Nat), 3⟩ : Threadsafe.LocalCell Nat)
      (Singletons.LocalSingleton.new 3 (fun _ => (0 : Nat))) (fun v => (v + 1, v + 1))).2.1
        rfl rfl⟩

/-- C3: the scope operation of the Interrupt variants asserts only that the
runtime thread identifier equals the bound one — nothing about the interrupt
flag is consulted, so a matching call succeeds whether or not it comes from an
interrupt handler — and runs the access inside the interrupt-masking window
(intMaskEnter and intMaskExit events), not the full cross-context critical
section; a call from another thread panics regardless of the interrupt flag. -/
theorem interruptcell_scope_policy {T FR : Type} (ctx : Ctx)
    (cellT : Threadsafe.InterruptCell T) (cellS : Singletons.InterruptSingleton T)
    (acc : T → FR × T) :
    (ctx.threadId ≠ cellT.thread_id →
      ∃ e, Threadsafe.InterruptCell.scope ctx cellT acc = Except.error e) ∧
    (ctx.threadId = cellT.thread_id →
      Threadsafe.InterruptCell.scope ctx cellT acc =
        Except.ok (((acc cellT.inner).1,
          (⟨(acc cellT.inner).2, cellT.thread_id⟩ : Threadsafe.InterruptCell T)),
          [Event.intMaskEnter, Event.accessorRun, Event.intMaskExit])) ∧
    (ctx.threadId ≠ cellS.THREAD_ID →
      ∃ e, Singletons.InterruptSingleton.scope ctx cellS acc = Except.error e) ∧
    (ctx.threadId = cellS.THREAD_ID →
      Singletons.InterruptSingleton.scope ctx cellS acc =
        runtime_interruptsafe_1l52Ge5e (cellS.raw acc)) := by
  refine ⟨?_, ?_, ?_, ?_⟩
  · intro hid
    exact ⟨⟨"cannot access local cell from another thread"⟩,
      by simp [Threadsafe.InterruptCell.scope, hid]⟩
  · intro hid
    simp [Threadsafe.InterruptCell.scope, Threadsafe.InterruptCell.raw, hid,
      runtime_interruptsafe_1l52Ge5e]
  · intro hid
    exact ⟨⟨"cannot access local singleton from different thread context"⟩,
      by simp [Singletons.InterruptSingleton.scope, hid]⟩
  · intro hid
    simp [Singletons.InterruptSingleton.scope, hid]

/-- Witness for C3: an interrupt cell bound to thread 2 accessed from thread 2
inside an interrupt handler succeeds and returns the accessor's result inside
the interrupt-masking window; accessed from thread 7 it panics whether or not
an interrupt handler is active. -/
theorem interruptcell_scope_policy_witness :
    Threadsafe.InterruptCell.scope ⟨2, true⟩ (⟨(9 : Nat), 2⟩ : Threadsafe.InterruptCell Nat)
      (fun v => (v + 1, v + 1)) =
      Except.ok (((10 : Nat), (⟨10, 2⟩ : Threadsafe.InterruptCell Nat)),
        [Event.intMaskEnter, Event.accessorRun, Event.intMaskExit]) ∧
    Singletons.InterruptSingleton.scope ⟨2, true⟩
      (Singletons.InterruptSingleton.new 2 (fun _ => (9 : Nat))) (fun v => (v + 1, v + 1)) =
      Except.ok (((10 : Nat), (⟨2, ⟨none, some 10⟩⟩ : Singletons.InterruptSingleton Nat)),
        [Event.intMaskEnter, Event.initRun, Event.accessorRun, Event.intMaskExit]) ∧
    (∃ e, Threadsafe.InterruptCell.scope ⟨7, true⟩
      (⟨(9 : Nat), 2⟩ : Threadsafe.InterruptCell Nat) (fun v => (v + 1, v + 1)) =
        Except.error e) ∧
    (∃ e, Threadsafe.InterruptCell.scope ⟨7, false⟩
      (⟨(9 : Nat), 2⟩ : Threadsafe.InterruptCell Nat) (fun v => (v + 1, v + 1)) =
        Except.error e) :=
  ⟨(interruptcell_scope_policy ⟨2, true⟩ (⟨(9 : Nat), 2⟩ : Threadsafe.InterruptCell Nat)
      (Singletons.InterruptSingleton.new 2 (fun _ => (9 : Nat))) (fun v => (v + 1, v + 1))).2.1
        rfl,
   (interruptcell_scope_policy ⟨2, true⟩ (⟨(9 : Nat), 2⟩ : Threadsafe.InterruptCell Nat)
      (Singletons.InterruptSingleton.new 2 (fun _ => (9 : Nat))) (fun v => (v + 1, v + 1))).2.2.2
        rfl,
   (interruptcell_scope_policy ⟨7, true⟩ (⟨(9 : Nat), 2⟩ : Threadsafe.InterruptCell Nat)
      (Singletons.InterruptSingleton.new 2 (fun _ => (9 : Nat))) (fun v => (v + 1, v + 1))).1
        (by decide),
   (interruptcell_scope_policy ⟨7, false⟩ (⟨(9 : Nat), 2⟩ : Threadsafe.InterruptCell Nat)
      (Singletons.InterruptSingleton.new 2 (fun _ => (9 : Nat))) (fun v => (v + 1, v + 1))).1
        (by decide)⟩

/-- C4: the scope operation of the Shared variants runs the whole access inside
the full cross-context critical section and hands the accessor's result back to
the caller: for the shared singleton both the one-time initialization (when the
initializer is still stored) and the accessor body lie strictly between the
critEnter and critExit events; the threadsafe shared cell wraps its raw
accessor call in the same window. -/
theorem sharedcell_scope_exclusive {T FR : Type} (inner : LazyCell T) (v : T)
    (acc : T → FR × T) :
    (∀ i, inner.init = some i →
      Singletons.SharedSingleton.scope ⟨inner⟩ acc =
        Except.ok (((acc (i ())).1,
          (⟨⟨none, some (acc (i ())).2⟩⟩ : Singletons.SharedSingleton T)),
          [Event.critEnter, Event.initRun, Event.accessorRun, Event.critExit])) ∧
    (∀ w, inner.init = none → inner.value = some w →
      Singletons.SharedSingleton.scope ⟨inner⟩ acc =
        Except.ok (((acc w).1,
          (⟨⟨none, some (acc w).2⟩⟩ : Singletons.SharedSingleton T)),
          [Event.critEnter, Event.accessorRun, Event.critExit])) ∧
    Threadsafe.SharedCell.scope ⟨v⟩ acc =
      Except.ok (((acc v).1, (⟨(acc v).2⟩ : Threadsafe.SharedCell T)),
        [Event.critEnter, Event.accessorRun, Event.critExit]) := by
  refine ⟨?_, ?_, ?_⟩
  · intro i h
    simp [Singletons.SharedSingleton.scope, Singletons.SharedSingleton.raw,
      LazyCell.scope, h, runtime_threadsafe_e0LtH0x3]
  · intro w h hv
    simp [Singletons.SharedSingleton.scope, Singletons.SharedSingleton.raw,
      LazyCell.scope, h, hv, runtime_threadsafe_e0LtH0x3]
  · simp [Threadsafe.SharedCell.scope, Threadsafe.SharedCell.raw,
      runtime_threadsafe_e0LtH0x3]

/-- Witness for C4: a fresh shared singleton with initializer producing 5 and
an accessor incrementing the value: initialization and accessor both run inside
the critical-section window and 6 is returned. -/
theorem sharedcell_scope_exclusive_witness :
    Singletons.SharedSingleton.scope (Singletons.SharedSingleton.new (fun _ => (5 : Nat)))
      (fun v => (v + 1, v + 1)) =
      Except.ok (((6 : Nat), (⟨⟨none, some 6⟩⟩ : Singletons.SharedSingleton Nat)),
        [Event.critEnter, Event.initRun, Event.accessorRun, Event.critExit]) :=
  (sharedcell_scope_exclusive (LazyCell.new (fun _ => (5 : Nat))) (0 : Nat)
    (fun v => (v + 1, v + 1))).1 (fun _ => (5 : Nat)) rfl

/-- C6 counterexample: no fixed capacity bounds the identifiers the local
singleton form accepts: for any candidate declared capacity, the singleton
bound to exactly that identifier is accessed successfully from the matching
non-interrupt context, so there is no identifier-indexed table whose capacity
is bounds-checked at access time. -/
theorem local_singleton_table_refuted :
    ¬ ∃ capacity, specLocalSingletonTableBound capacity := by
  rintro ⟨c, h⟩
  obtain ⟨e, he⟩ := h (Singletons.LocalSingleton.new c (fun _ => 0)) ⟨c, false⟩
    (fun v => (v, v)) (le_refl c)
  simp [Singletons.LocalSingleton.scope, Singletons.LocalSingleton.new,
    Singletons.LocalSingleton.raw, LazyCell.scope, LazyCell.new] at he

/-- C6 amended: the local singleton form carries its bound context identifier
as a compile-time constant parameter and stores a single lazy cell — there is
no identifier-indexed table and no capacity bound; at access time the current
context identifier is compared for equality with the bound one, so a singleton
bound to any identifier, however large, is accessible from exactly the matching
non-interrupt context and panics from any other thread. -/
theorem local_singleton_const_binding {FR : Type} (n : Nat) (ctx : Ctx)
    (init : Unit → Nat) (acc : Nat → FR × Nat) :
    (ctx.threadId = n → ctx.isInterrupted = false →
      Singletons.LocalSingleton.scope ctx (Singletons.LocalSingleton.new n init) acc =
        Except.ok (((acc (init ())).1,
          (⟨n, ⟨none, some (acc (init ())).2⟩⟩ : Singletons.LocalSingleton Nat)),
          [Event.initRun, Event.accessorRun])) ∧
    (ctx.threadId ≠ n →
      ∃ e, Singletons.LocalSingleton.scope ctx (Singletons.LocalSingleton.new n init) acc =
        Except.error e) := by
  constructor
  · intro hid hint
    simp [Singletons.LocalSingleton.scope, Singletons.LocalSingleton.new,
      Singletons.LocalSingleton.raw, LazyCell.scope, LazyCell.new, hid, hint]
  · intro hid
    exact ⟨⟨"cannot access local singleton from different thread context"⟩,
      by simp [Singletons.LocalSingleton.scope, Singletons.LocalSingleton.new, hid]⟩

/-- Witness for the amended C6: a singleton bound to the identifier 1000000 —
far beyond any plausible declared context count — is accessed successfully from
context 1000000 and panics from context 0. -/
theorem local_singleton_const_binding_witness :
    Singletons.LocalSingleton.scope ⟨1000000, false⟩
      (Singletons.LocalSingleton.new 1000000 (fun _ => (5 : Nat))) (fun v => (v + 1, v + 1)) =
      Except.ok (((6 : Nat),
        (⟨1000000, ⟨none, some 6⟩⟩ : Singletons.LocalSingleton Nat)),
        [Event.initRun, Event.accessorRun]) ∧
    (∃ e, Singletons.LocalSingleton.scope ⟨0, false⟩
      (Singletons.LocalSingleton.new 1000000 (fun _ => (5 : Nat))) (fun v => (v + 1, v + 1)) =
        Except.error e) :=
  ⟨(local_singleton_const_binding 1000000 ⟨1000000, false⟩ (fun _ => (5 : Nat))
      (fun v => (v + 1, v + 1))).1 rfl rfl,
   (local_singleton_const_binding 1000000 ⟨0, false⟩ (fun _ => (5 : Nat))
      (fun v => (v + 1, v + 1))).2 (by decide)⟩

/-- C7: the Debug formatting of the context-bound variants respects each
variant's access policy without ever panicking: called from a disallowed
context (wrong thread for all three; additionally an interrupt context for the
Local forms) it returns the fixed opaque placeholder with an empty trace — the
value accessor is never invoked — and only from an allowed context does it hand
the live value to the formatter. -/
theorem fmt_respects_access_policy {T : Type} (ctx : Ctx) (cellL : Threadsafe.LocalCell T)
    (cellI : Threadsafe.InterruptCell T) (cellS : Singletons.LocalSingleton T) :
    (ctx.threadId ≠ cellL.thread_id →
      Threadsafe.LocalCell.fmt ctx cellL =
        Except.ok (Threadsafe.FmtOut.fixedText "LocalCell"
          "<opaque due to different thread>", [])) ∧
    (ctx.threadId = cellL.thread_id → ctx.isInterrupted = true →
      Threadsafe.LocalCell.fmt ctx cellL =
        Except.ok (Threadsafe.FmtOut.fixedText "LocalCell"
          "<opaque due to interrupt context>", [])) ∧
    (ctx.threadId = cellL.thread_id → ctx.isInterrupted = false →
      Threadsafe.LocalCell.fmt ctx cellL =
        Except.ok (Threadsafe.FmtOut.live cellL.inner, [Event.accessorRun])) ∧
    (ctx.threadId ≠ cellI.thread_id →
      Threadsafe.InterruptCell.fmt ctx cellI =
        Except.ok (Threadsafe.FmtOut.fixedText "InterruptCell"
          "<opaque due to different thread>", [])) ∧
    (ctx.threadId = cellI.thread_id →
      Threadsafe.InterruptCell.fmt ctx cellI =
        Except.ok (Threadsafe.FmtOut.live cellI.inner,
          [Event.intMaskEnter, Event.accessorRun, Event.intMaskExit])) ∧
    (ctx.threadId ≠ cellS.THREAD_ID →
      Singletons.LocalSingleton.fmt ctx cellS =
        Except.ok (Threadsafe.FmtOut.fixedText "LocalSingleton"
          "<opaque due to different thread context>", [])) ∧
    (ctx.threadId = cellS.THREAD_ID → ctx.isInterrupted = true →
      Singletons.LocalSingleton.fmt ctx cellS =
        Except.ok (Threadsafe.FmtOut.fixedText "LocalSingleton"
          "<opaque due to interrupt context>", [])) ∧
    (ctx.threadId = cellS.THREAD_ID → ctx.isInterrupted = false → cellS.inner.wf →
      ∃ v ev, Singletons.LocalSingleton.fmt ctx cellS =
        Except.ok (Threadsafe.FmtOut.live v, ev)) := by
  refine ⟨?_, ?_, ?_, ?_, ?_, ?_, ?_, ?_⟩
  · intro hid
    simp [Threadsafe.LocalCell.fmt, hid]
  · intro hid hint
    simp [Threadsafe.LocalCell.fmt, hid, hint]
  · intro hid hint
    simp [Threadsafe.LocalCell.fmt, Threadsafe.LocalCell.scope, Threadsafe.LocalCell.raw,
      hid, hint]
  · intro hid
    simp [Threadsafe.InterruptCell.fmt, hid]
  · intro hid
    simp [Threadsafe.InterruptCell.fmt, Threadsafe.InterruptCell.scope,
      Threadsafe.InterruptCell.raw, hid, runtime_interruptsafe_1l52Ge5e]
  · intro hid
    simp [Singletons.LocalSingleton.fmt, hid]
  · intro hid hint
    simp [Singletons.LocalSingleton.fmt, hid, hint]
  · intro hid hint hwf
    rcases hi : cellS.inner.init with _ | i
    · rcases hv : cellS.inner.value with _ | w
      · rcases hwf with h | h
        · rw [hi] at h
          simp at h
        · rw [hv] at h
          simp at h
      · exact ⟨w, [Event.accessorRun],
          by simp [Singletons.LocalSingleton.fmt, Singletons.LocalSingleton.scope,
            Singletons.LocalSingleton.raw, LazyCell.scope, hid, hint, hi, hv]⟩
    · exact ⟨i (), [Event.initRun, Event.accessorRun],
        by simp [Singletons.LocalSingleton.fmt, Singletons.LocalSingleton.scope,
          Singletons.LocalSingleton.raw, LazyCell.scope, hid, hint, hi]⟩

/-- Witness for C7: a local cell bound to thread 1 formatted from thread 2
yields the opaque placeholder with no access; formatted from thread 1 outside
an interrupt handler it yields the live value; an interrupt cell bound to
thread 1 formatted from thread 1 inside an interrupt handler yields the live
value. -/
theorem fmt_respects_access_policy_witness :
    Threadsafe.LocalCell.fmt ⟨2, false⟩ (⟨(7 : Nat), 1⟩ : Threadsafe.LocalCell Nat) =
      Except.ok (Threadsafe.FmtOut.fixedText "LocalCell"
        "<opaque due to different thread>", []) ∧
    Threadsafe.LocalCell.fmt ⟨1, true⟩ (⟨(7 : Nat), 1⟩ : Threadsafe.LocalCell Nat) =
      Except.ok (Threadsafe.FmtOut.fixedText "LocalCell"
        "<opaque due to interrupt context>", []) ∧
    Threadsafe.LocalCell.fmt ⟨1, false⟩ (⟨(7 : Nat), 1⟩ : Threadsafe.LocalCell Nat) =
      Except.ok (Threadsafe.FmtOut.live (7 : Nat), [Event.accessorRun]) ∧
    Threadsafe.InterruptCell.fmt ⟨1, true⟩ (⟨(7 : Nat), 1⟩ : Threadsafe.InterruptCell Nat) =
      Except.ok (Threadsafe.FmtOut.live (7 : Nat),
        [Event.intMaskEnter, Event.accessorRun, Event.intMaskExit]) ∧
    (∃ v ev, Singletons.LocalSingleton.fmt ⟨1, false⟩
      (Singletons.LocalSingleton.new 1 (fun _ => (7 : Nat))) =
        Except.ok (Threadsafe.FmtOut.live v, ev)) :=
  ⟨(fmt_respects_access_policy ⟨2, false⟩ (⟨(7 : Nat), 1⟩ : Threadsafe.LocalCell Nat)
      (⟨(7 : Nat), 1⟩ : Threadsafe.InterruptCell Nat)
      (Singletons.LocalSingleton.new 1 (fun _ => (7 : Nat)))).1 (by decide),
   (fmt_respects_access_policy ⟨1, true⟩ (⟨(7 : Nat), 1⟩ : Threadsafe.LocalCell Nat)
      (⟨(7 : Nat), 1⟩ : Threadsafe.InterruptCell Nat)
      (Singletons.LocalSingleton.new 1 (fun _ => (7 : Nat)))).2.1 rfl rfl,
   (fmt_respects_access_policy ⟨1, false⟩ (⟨(7 : Nat), 1⟩ : Threadsafe.LocalCell Nat)
      (⟨(7 : Nat), 1⟩ : Threadsafe.InterruptCell Nat)
      (Singletons.LocalSingleton.new 1 (fun _ => (7 : Nat)))).2.2.1 rfl rfl,
   (fmt_respects_access_policy ⟨1, true⟩ (⟨(7 : Nat), 1⟩ : Threadsafe.LocalCell Nat)
      (⟨(7 : Nat), 1⟩ : Threadsafe.InterruptCell Nat)
      (Singletons.LocalSingleton.new 1 (fun _ => (7 : Nat)))).2.2.2.2.1 rfl,
   (fmt_respects_access_policy ⟨1, false⟩ (⟨(7 : Nat), 1⟩ : Threadsafe.LocalCell Nat)
      (⟨(7 : Nat), 1⟩ : Threadsafe.InterruptCell Nat)
      (Singletons.LocalSingleton.new 1 (fun _ => (7 : Nat)))).2.2.2.2.2.2.2 rfl rfl
        (Or.inl rfl)⟩

/-- C8: round-trip through a shared cell: writing the record with fields 1 and
2 in one scope call and reading in a later scope call yields the same record
unchanged (the shared cell accepts every context, so any context is
permitted). -/
theorem sharedcell_roundtrip (c : Threadsafe.SharedCell Pair) :
    Threadsafe.SharedCell.scope c (fun _ => ((), Pair.mk 1 2)) =
      Except.ok ((((), (Threadsafe.SharedCell.mk (Pair.mk 1 2)))),
        [Event.critEnter, Event.accessorRun, Event.critExit]) ∧
    Threadsafe.SharedCell.scope (Threadsafe.SharedCell.mk (Pair.mk 1 2)) (fun v => (v, v)) =
      Except.ok ((Pair.mk 1 2, Threadsafe.SharedCell.mk (Pair.mk 1 2)),
        [Event.critEnter, Event.accessorRun, Event.critExit]) := by
  constructor
  · simp [Threadsafe.SharedCell.scope, Threadsafe.SharedCell.raw,
      runtime_threadsafe_e0LtH0x3]
  · simp [Threadsafe.SharedCell.scope, Threadsafe.SharedCell.raw,
      runtime_threadsafe_e0LtH0x3]

/-- C9: the rp2040 interrupt-masking runtime function saves the PRIMASK
interrupt-enable state before disabling interrupts, runs the code on the masked
state keeping its memory effects, and re-enables interrupts only if they were
active before the call — so for any code that never unmasks interrupts on its
own, the prior interrupt-enable state is exactly restored, and a nested call
likewise leaves the interrupt-enable state unchanged. -/
theorem rp2040_interruptsafe_restores_primask {σ : Type}
    (code : Rp2040.IntState σ → Rp2040.IntState σ)
    (hcode : ∀ t, t.primaskActive = false → (code t).primaskActive = false)
    (s : Rp2040.IntState σ) :
    (Rp2040.runtime_interruptsafe code s).primaskActive = s.primaskActive ∧
    (Rp2040.runtime_interruptsafe code s).mem = (code ⟨false, s.mem⟩).mem ∧
    (Rp2040.runtime_interruptsafe (Rp2040.runtime_interruptsafe code) s).primaskActive =
      s.primaskActive := by
  have hwrap : ∀ t : Rp2040.IntState σ, t.primaskActive = false →
      (Rp2040.runtime_interruptsafe code t).primaskActive = false := by
    intro t ht
    simp [Rp2040.runtime_interruptsafe, ht]
    exact hcode ⟨false, t.mem⟩ rfl
  rcases s with ⟨p, m⟩
  cases p
  · exact ⟨hcode ⟨false, m⟩ rfl, rfl, hwrap ⟨false, m⟩ rfl⟩
  · exact ⟨rfl, rfl, rfl⟩

/-- Witness for C9: a code block that increments a counter, run with interrupts
initially enabled: afterwards interrupts are enabled again, the counter was
incremented on the masked state, and the nested call also restores the enabled
state. -/
theorem rp2040_interruptsafe_restores_primask_witness :
    (Rp2040.runtime_interruptsafe
      (fun t => (⟨t.primaskActive, t.mem + 1⟩ : Rp2040.IntState Nat))
      ⟨true, 0⟩).primaskActive = true ∧
    (Rp2040.runtime_interruptsafe
      (fun t => (⟨t.primaskActive, t.mem + 1⟩ : Rp2040.IntState Nat))
      ⟨true, 0⟩).mem = 1 ∧
    (Rp2040.runtime_interruptsafe (Rp2040.runtime_interruptsafe
      (fun t => (⟨t.primaskActive, t.mem + 1⟩ : Rp2040.IntState Nat)))
      ⟨true, 0⟩).primaskActive = true :=
  rp2040_interruptsafe_restores_primask
    (fun t => (⟨t.primaskActive, t.mem + 1⟩ : Rp2040.IntState Nat))
    (fun _ ht => ht) ⟨true, 0⟩

/-- C10: the cell family binds its context at construction and never later: the
new constructor of the local and interrupt cells stores the constructing
context's runtime thread identifier, new_with_threadid stores the explicitly
supplied one, a scope call never alters the stored identifier, and a cell
constructed by context C is accessible exactly from context C afterwards
(additionally requiring a non-interrupt context for the local cell). -/
theorem cells_bind_at_construction {T FR : Type} (ctx ctx2 : Ctx) (v : T) (tid : Nat)
    (cellL : Threadsafe.LocalCell T) (cellI : Threadsafe.InterruptCell T)
    (acc : T → FR × T) :
    (Threadsafe.LocalCell.new ctx v).thread_id = ctx.threadId ∧
    (Threadsafe.InterruptCell.new ctx v).thread_id = ctx.threadId ∧
    (Threadsafe.LocalCell.new_with_threadid v tid).thread_id = tid ∧
    (Threadsafe.InterruptCell.new_with_threadid v tid).thread_id = tid ∧
    (∀ p ev, Threadsafe.LocalCell.scope ctx2 cellL acc = Except.ok (p, ev) →
      p.2.thread_id = cellL.thread_id) ∧
    (∀ p ev, Threadsafe.InterruptCell.scope ctx2 cellI acc = Except.ok (p, ev) →
      p.2.thread_id = cellI.thread_id) ∧
    ((∃ p ev, Threadsafe.LocalCell.scope ctx2 (Threadsafe.LocalCell.new ctx v) acc =
        Except.ok (p, ev)) ↔
      ctx2.threadId = ctx.threadId ∧ ctx2.isInterrupted = false) ∧
    ((∃ p ev, Threadsafe.InterruptCell.scope ctx2 (Threadsafe.InterruptCell.new ctx v) acc =
        Except.ok (p, ev)) ↔
      ctx2.threadId = ctx.threadId) := by
  refine ⟨rfl, rfl, rfl, rfl, ?_, ?_, ?_, ?_⟩
  · intro p ev h
    by_cases hint : ctx2.isInterrupted
    · simp [Threadsafe.LocalCell.scope, hint] at h
    · by_cases hid : ctx2.threadId = cellL.thread_id
      · simp [Threadsafe.LocalCell.scope, Threadsafe.LocalCell.raw, hint, hid] at h
        rw [← h.1]
      · simp [Threadsafe.LocalCell.scope, hint, hid] at h
  · intro p ev h
    by_cases hid : ctx2.threadId = cellI.thread_id
    · simp [Threadsafe.InterruptCell.scope, Threadsafe.InterruptCell.raw, hid,
        runtime_interruptsafe_1l52Ge5e] at h
      rw [← h.1]
    · simp [Threadsafe.InterruptCell.scope, hid] at h
  · constructor
    · rintro ⟨p, ev, h⟩
      by_cases hint : ctx2.isInterrupted
      · simp [Threadsafe.LocalCell.scope, hint] at h
      · by_cases hid : ctx2.threadId = ctx.threadId
        · exact ⟨hid, by simpa using hint⟩
        · simp [Threadsafe.LocalCell.scope, Threadsafe.LocalCell.new,
            Threadsafe.LocalCell.new_with_threadid, hint, hid] at h
    · rintro ⟨hid, hint⟩
      exact ⟨((acc v).1, ⟨(acc v).2, ctx.threadId⟩), [Event.accessorRun],
        by simp [Threadsafe.LocalCell.scope, Threadsafe.LocalCell.new,
          Threadsafe.LocalCell.new_with_threadid, Threadsafe.LocalCell.raw, hint, hid]⟩
  · constructor
    · rintro ⟨p, ev, h⟩
      by_cases hid : ctx2.threadId = ctx.threadId
      · exact hid
      · simp [Threadsafe.InterruptCell.scope, Threadsafe.InterruptCell.new,
          Threadsafe.InterruptCell.new_with_threadid, hid] at h
    · intro hid
      exact ⟨((acc v).1, ⟨(acc v).2, ctx.threadId⟩),
        [Event.intMaskEnter, Event.accessorRun, Event.intMaskExit],
        by simp [Threadsafe.InterruptCell.scope, Threadsafe.InterruptCell.new,
          Threadsafe.InterruptCell.new_with_threadid, Threadsafe.InterruptCell.raw,
          runtime_interruptsafe_1l52Ge5e, hid]⟩

/-- Witness for C10: a local cell constructed by context 4 carries the bound
identifier 4, a scope call from context 4 leaves the bound identifier at 4, the
cell is accessible from context 4 outside an interrupt handler, and an
interrupt cell constructed by context 4 is accessible from context 4 inside an
interrupt handler. -/
theorem cells_bind_at_construction_witness :
    (Threadsafe.LocalCell.new ⟨4, false⟩ (0 : Nat)).thread_id = 4 ∧
    ((((0 : Nat), (⟨0, 4⟩ : Threadsafe.LocalCell Nat)) :
        Nat × Threadsafe.LocalCell Nat).2.thread_id =
      (Threadsafe.LocalCell.new ⟨4, false⟩ (0 : Nat)).thread_id) ∧
    (∃ p ev, Threadsafe.LocalCell.scope ⟨4, false⟩
      (Threadsafe.LocalCell.new ⟨4, false⟩ (0 : Nat)) (fun v => (v, v)) =
        Except.ok (p, ev)) ∧
    (∃ p ev, Threadsafe.InterruptCell.scope ⟨4, true⟩
      (Threadsafe.InterruptCell.new ⟨4, false⟩ (0 : Nat)) (fun v => (v, v)) =
        Except.ok (p, ev)) :=
  ⟨(cells_bind_at_construction ⟨4, false⟩ ⟨4, false⟩ (0 : Nat) 4
      (Threadsafe.LocalCell.new ⟨4, false⟩ (0 : Nat))
      (Threadsafe.InterruptCell.new ⟨4, false⟩ (0 : Nat)) (fun v => (v, v))).1,
   (cells_bind_at_construction ⟨4, false⟩ ⟨4, false⟩ (0 : Nat) 4
      (Threadsafe.LocalCell.new ⟨4, false⟩ (0 : Nat))
      (Threadsafe.InterruptCell.new ⟨4, false⟩ (0 : Nat)) (fun v => (v, v))).2.2.2.2.1
      ((0 : Nat), (⟨0, 4⟩ : Threadsafe.LocalCell Nat)) [Event.accessorRun] rfl,
   (cells_bind_at_construction ⟨4, false⟩ ⟨4, false⟩ (0 : Nat) 4
      (Threadsafe.LocalCell.new ⟨4, false⟩ (0 : Nat))
      (Threadsafe.InterruptCell.new ⟨4, false⟩ (0 : Nat)) (fun v => (v, v))).2.2.2.2.2.2.1.mpr
      ⟨rfl, rfl⟩,
   (cells_bind_at_construction ⟨4, false⟩ ⟨4, true⟩ (0 : Nat) 4
      (Threadsafe.LocalCell.new ⟨4, false⟩ (0 : Nat))
      (Threadsafe.InterruptCell.new ⟨4, false⟩ (0 : Nat)) (fun v => (v, v))).2.2.2.2.2.2.2.mpr
      rfl⟩
